import Mathlib

/-!
Verification development for the CNMC resolution classifier
(src/src/analysis/classifier.py and src/src/analysis/rules.py).

The Python code is regex-driven.  We embed it shallowly: a small
backtracking regular-expression engine over lists of characters that
follows the semantics of the Python re module for the constructs the
program uses (ordered alternation, greedy and lazy quantifiers,
character classes, groups, lookahead, anchors, word boundaries), plus
an abstract syntax tree for every pattern literal of the source, and
Lean functions mirroring each Python function.
-/

set_option maxRecDepth 2000

namespace CNMC

/-- Items of a regex character class. -/
inductive CItem where
  | one (c : Char)
  | range (lo hi : Char)
  | digit
  | space
  | nonspace
  | word
deriving DecidableEq

/-- Regex abstract syntax: the constructs used by the classifier patterns.
rep lo hi lzy r is the bounded repetition of r, at least lo times, at most
hi times when hi is given; lzy selects the lazy (non-greedy) variant.
bol is the multiline caret, bos the plain caret, eolF the plain dollar,
eos the backslash-Z anchor, wordB the backslash-b word boundary. -/
inductive Re where
  | eps
  | ch (c : Char)
  | cls (neg : Bool) (items : List CItem)
  | seq2 (a b : Re)
  | alt2 (a b : Re)
  | rep (lo : Nat) (hi : Option Nat) (lzy : Bool) (r : Re)
  | grp (i : Nat) (r : Re)
  | look (neg : Bool) (r : Re)
  | bol
  | bos
  | eolF
  | eos
  | wordB
deriving DecidableEq

/-- Lowercase conversion covering ASCII plus the accented letters used by
the source patterns (Python IGNORECASE folds these). -/
def lowerCh (c : Char) : Char :=
  if c = 'Á' then 'á' else if c = 'É' then 'é' else if c = 'Í' then 'í'
  else if c = 'Ó' then 'ó' else if c = 'Ú' then 'ú' else if c = 'Ü' then 'ü'
  else if c = 'Ñ' then 'ñ' else c.toLower

/-- Uppercase conversion covering ASCII plus the accented letters used by
the source patterns. -/
def upperCh (c : Char) : Char :=
  if c = 'á' then 'Á' else if c = 'é' then 'É' else if c = 'í' then 'Í'
  else if c = 'ó' then 'Ó' else if c = 'ú' then 'Ú' else if c = 'ü' then 'Ü'
  else if c = 'ñ' then 'Ñ' else c.toUpper

/-- Whitespace in the sense of the regex class backslash-s. -/
def isSpaceCh (c : Char) : Bool :=
  c = ' ' || c = '\t' || c = '\n' || c = '\x0d' || c = '\x0b' || c = '\x0c'

/-- Word characters in the sense of backslash-w, covering ASCII
alphanumerics, underscore and the Spanish letters appearing in the
documents. -/
def isWordCh (c : Char) : Bool :=
  c.isAlphanum || c = '_' ||
  (['á','é','í','ó','ú','ü','ñ','Á','É','Í','Ó','Ú','Ü','Ñ','º','ª'].contains c)

/-- Does a single class item accept the character (case sensitively)? -/
def citemMatch (it : CItem) (c : Char) : Bool :=
  match it with
  | .one d => c = d
  | .range lo hi => lo ≤ c && c ≤ hi
  | .digit => c.isDigit
  | .space => isSpaceCh c
  | .nonspace => !isSpaceCh c
  | .word => isWordCh c

/-- Class match, honouring the IGNORECASE flag as Python does (a class
accepts a character if it accepts the character itself or a case
variant of it). -/
def clsMatch (ci : Bool) (neg : Bool) (items : List CItem) (c : Char) : Bool :=
  let b := items.any fun it =>
    citemMatch it c ||
    (ci && (citemMatch it (lowerCh c) || citemMatch it (upperCh c)))
  if neg then !b else b

/-- Single character match, honouring IGNORECASE. -/
def chMatch (ci : Bool) (c d : Char) : Bool :=
  if ci then lowerCh c = lowerCh d else c = d

/-- Capture list: group index, start offset, end offset; most recent first. -/
abbrev Caps := List (Nat × Nat × Nat)

/-- Final matcher state handed to the continuation: character before the
current position, remaining input, current offset, captures. -/
structure MEnd where
  mprev : Option Char
  mrest : List Char
  mpos : Nat
  mcaps : Caps
deriving DecidableEq

/-- Lazy orelse on Option, so that backtracking alternatives are only
explored on failure. -/
def orElseO {α : Type} (a : Option α) (b : Unit → Option α) : Option α :=
  match a with
  | some x => some x
  | none => b ()

/-- Backtracking matcher in continuation-passing style.  Attempts are
explored in the priority order of the Python re module: alternation is
left first, greedy repetition prefers longer, lazy repetition prefers
shorter.  The first success in that order is the result.  The fuel
bounds recursion depth and is chosen large enough at every call site. -/
def mrun (ci : Bool) : Nat → Re → Option Char → List Char → Nat → Caps →
    (Option Char → List Char → Nat → Caps → Option MEnd) → Option MEnd
  | 0, _, _, _, _, _, _ => none
  | fuel+1, re, prev, rest, pos, caps, k =>
    match re with
    | .eps => k prev rest pos caps
    | .ch c =>
      match rest with
      | [] => none
      | d :: rest2 => if chMatch ci d c then k (some d) rest2 (pos+1) caps else none
    | .cls neg items =>
      match rest with
      | [] => none
      | d :: rest2 => if clsMatch ci neg items d then k (some d) rest2 (pos+1) caps else none
    | .seq2 a b =>
      mrun ci fuel a prev rest pos caps fun p r q c => mrun ci fuel b p r q c k
    | .alt2 a b =>
      orElseO (mrun ci fuel a prev rest pos caps k)
        (fun _ => mrun ci fuel b prev rest pos caps k)
    | .grp i r =>
      mrun ci fuel r prev rest pos caps fun p rr q c => k p rr q ((i, pos, q) :: c)
    | .look neg r =>
      let sub := mrun ci fuel r prev rest pos caps fun p rr q c => some ⟨p, rr, q, c⟩
      if neg then
        match sub with
        | some _ => none
        | none => k prev rest pos caps
      else
        match sub with
        | some e => k prev rest pos e.mcaps
        | none => none
    | .bol =>
      match prev with
      | none => k prev rest pos caps
      | some c => if c = '\n' then k prev rest pos caps else none
    | .bos =>
      match prev with
      | none => k prev rest pos caps
      | some _ => none
    | .eolF =>
      match rest with
      | [] => k prev rest pos caps
      | [c] => if c = '\n' then k prev rest pos caps else none
      | _ => none
    | .eos =>
      match rest with
      | [] => k prev rest pos caps
      | _ => none
    | .wordB =>
      let before := match prev with
        | none => false
        | some c => isWordCh c
      let after := match rest with
        | [] => false
        | c :: _ => isWordCh c
      if before ≠ after then k prev rest pos caps else none
    | .rep lo hi lzy r =>
      match lo with
      | l+1 =>
        mrun ci fuel r prev rest pos caps fun p rr q c =>
          mrun ci fuel (.rep l (hi.map (· - 1)) lzy r) p rr q c k
      | 0 =>
        match hi with
        | some 0 => k prev rest pos caps
        | _ =>
          if lzy then
            orElseO (k prev rest pos caps) fun _ =>
              mrun ci fuel r prev rest pos caps fun p rr q c =>
                if q = pos then none
                else mrun ci fuel (.rep 0 (hi.map (· - 1)) lzy r) p rr q c k
          else
            orElseO
              (mrun ci fuel r prev rest pos caps fun p rr q c =>
                if q = pos then none
                else mrun ci fuel (.rep 0 (hi.map (· - 1)) lzy r) p rr q c k)
              (fun _ => k prev rest pos caps)

/-- A search result: offsets of the whole match (group 0), the captures,
and the matcher state at the end of the match (used to continue
scanning without re-walking the input). -/
structure SearchRes where
  sstart : Nat
  send : Nat
  scaps : Caps
  sprev : Option Char
  srest : List Char
deriving DecidableEq

/-- Attempt the pattern at successive start offsets, returning the
leftmost match, as re.search does. -/
def searchAt (ci : Bool) (mf : Nat) (re : Re) :
    Nat → Option Char → List Char → Nat → Option SearchRes
  | 0, _, _, _ => none
  | fuel+1, prev, rest, pos =>
    match mrun ci mf re prev rest pos [] (fun p r q c => some ⟨p, r, q, c⟩) with
    | some e => some ⟨pos, e.mpos, e.mcaps, e.mprev, e.mrest⟩
    | none =>
      match rest with
      | [] => none
      | d :: rest2 => searchAt ci mf re fuel (some d) rest2 (pos+1)

/-- Matcher fuel for an input: generous bound on backtracking depth. -/
def mfuel (s : List Char) : Nat := 4 * s.length + 600

/-- re.search over a whole input. -/
def reSearch (ci : Bool) (re : Re) (s : List Char) : Option SearchRes :=
  searchAt ci (mfuel s) re (s.length + 1) none s 0

/-- Slice of a list between two offsets. -/
def sliceL (s : List Char) (st en : Nat) : List Char :=
  (s.drop st).take (en - st)

/-- The text matched by group 0 of a search result. -/
def matchedText (s : List Char) (r : SearchRes) : List Char :=
  sliceL s r.sstart r.send

/-- re.search returning only the matched text. -/
def reSearchM (ci : Bool) (re : Re) (s : List Char) : Option (List Char) :=
  (reSearch ci re s).map (matchedText s)

/-- Content of a capturing group, if it participated in the match. -/
def capGet (caps : Caps) (i : Nat) : Option (Nat × Nat) :=
  (caps.find? fun x => x.1 == i).map fun x => (x.2.1, x.2.2)

/-- All matches, scanning left to right without overlap, as re.finditer
does (an empty match advances the scan by one character). -/
def finditerAux (ci : Bool) (mf : Nat) (re : Re) :
    Nat → Option Char → List Char → Nat → List SearchRes
  | 0, _, _, _ => []
  | fuel+1, prev, rest, pos =>
    match searchAt ci mf re (rest.length + 1) prev rest pos with
    | none => []
    | some r =>
      if r.sstart < r.send then
        r :: finditerAux ci mf re fuel r.sprev r.srest r.send
      else
        match r.srest with
        | [] => [r]
        | d :: rest2 => r :: finditerAux ci mf re fuel (some d) rest2 (r.send + 1)

/-- re.finditer over a whole input. -/
def finditer (ci : Bool) (re : Re) (s : List Char) : List SearchRes :=
  finditerAux ci (mfuel s) re (s.length + 2) none s 0

/-- Replace every match by a fixed string, as re.sub does with a
constant replacement. -/
def reSubAux (ci : Bool) (mf : Nat) (re : Re) (repl : List Char) :
    Nat → Option Char → List Char → Nat → List Char
  | 0, _, rest, _ => rest
  | fuel+1, prev, rest, pos =>
    match searchAt ci mf re (rest.length + 1) prev rest pos with
    | none => rest
    | some r =>
      (rest.take (r.sstart - pos)) ++ repl ++
      (if r.sstart < r.send then
        reSubAux ci mf re repl fuel r.sprev r.srest r.send
      else
        match r.srest with
        | [] => []
        | d :: rest2 => d :: reSubAux ci mf re repl fuel (some d) rest2 (r.send + 1))

/-- re.sub over a whole input. -/
def reSub (ci : Bool) (re : Re) (repl : List Char) (s : List Char) : List Char :=
  reSubAux ci (mfuel s) re repl (s.length + 2) none s 0

/-! Pattern construction helpers. -/

/-- Concatenation of a list of regexes. -/
def rcat (l : List Re) : Re := l.foldr Re.seq2 Re.eps

/-- Literal string pattern. -/
def rlit (s : String) : Re := rcat (s.toList.map Re.ch)

/-- Ordered alternation of a list of regexes (first has priority). -/
def ralt : List Re → Re
  | [] => Re.eps
  | [r] => r
  | r :: rs => Re.alt2 r (ralt rs)

/-- Greedy option: question mark. -/
def ropt (r : Re) : Re := .rep 0 (some 1) false r

/-- Greedy star. -/
def rstar (r : Re) : Re := .rep 0 none false r

/-- Greedy plus. -/
def rplus (r : Re) : Re := .rep 1 none false r

/-- The class backslash-s. -/
def wsC : Re := .cls false [.space]

/-- One or more whitespace characters. -/
def wsP : Re := rplus wsC

/-- Zero or more whitespace characters. -/
def wsS : Re := rstar wsC

/-- The class backslash-S. -/
def nonwsC : Re := .cls false [.nonspace]

/-- The dot under DOTALL, also the class backslash-s-backslash-S. -/
def dotA : Re := .cls false [.space, .nonspace]

/-- The dot without DOTALL: anything but a newline. -/
def dotN : Re := .cls true [.one '\n']

/-- The class backslash-d. -/
def dgtC : Re := .cls false [.digit]

/-- The class backslash-w. -/
def wrdC : Re := .cls false [.word]

/-- A literal word followed by one-or-more whitespace, a very common
building block of the source patterns. -/
def word_ws (s : String) : Re := .seq2 (rlit s) wsP

/-- An optional literal-plus-whitespace group such as el-space or la-space. -/
def optw (s : String) : Re := ropt (word_ws s)

/-! ### The category patterns of ResolutionClassifier.CATEGORIES.

Each definition transcribes one regex literal of the source, in
declaration order.  They are compiled with IGNORECASE and DOTALL in
the source, so every dot below is dotA and searches pass ci = true. -/

/-- The shared verb piece: desestim then a, ar or e. -/
def desestimV : Re :=
  rcat [rlit ("desestim"), ralt [rcat [.ch 'a', ropt (.ch 'r')], .ch 'e']]

/-- The shared verb piece: estim then a, ar or e. -/
def estimV : Re :=
  rcat [rlit ("estim"), ralt [rcat [.ch 'a', ropt (.ch 'r')], .ch 'e']]

def arch01 : Re :=
  rcat [rlit ("declara"), ropt (.ch 'r'), wsP, optw ("el"), optw ("procedimiento"),
    rlit ("conclu"), ralt [rlit ("so"), rlit ("ido")]]

def arch02 : Re := rcat [word_ws ("declare"), rlit ("concluso")]

def arch03 : Re :=
  rcat [rlit ("acepta"), ropt (.ch 'r'), wsP,
    ropt (rcat [word_ws ("de"), word_ws ("plano")]), optw ("el"), rlit ("desistimiento")]

def arch04 : Re :=
  rcat [rlit ("aceptar"), ropt (.ch ','), wsP, word_ws ("conforme"), word_ws ("al"),
    word_ws ("artículo"), rlit ("94")]

def arch05 : Re :=
  rcat [rlit ("archiva"), ropt (.ch 'r'), wsP,
    ropt (ralt [word_ws ("las"), word_ws ("el")]),
    ralt [rlit ("actuaciones"), rlit ("procedimiento")]]

def arch06 : Re :=
  rcat [word_ws ("archivo"), ropt (rcat [word_ws ("de"), word_ws ("las")]), rlit ("actuaciones")]

def arch07 : Re := rcat [word_ws ("proceder"), word_ws ("al"), rlit ("archivo")]

def arch08 : Re :=
  rcat [word_ws ("desaparición"), optw ("sobrevenida"),
    ropt (rcat [word_ws ("de"), optw ("su")]), rlit ("objeto")]

def arch09 : Re :=
  rcat [rlit ("declara"), ropt (.ch 'r'), wsP, word_ws ("la"), rlit ("desaparición")]

def arch10 : Re :=
  rcat [word_ws ("pérdida"), optw ("sobrevenida"),
    ropt (rcat [rlit ("de"), ropt (.ch 'l'), wsP]), optw ("su"), rlit ("objeto")]

def arch11 : Re := rcat [word_ws ("falta"), word_ws ("de"), rlit ("objeto")]

def arch12 : Re :=
  rcat [rlit ("inadmiti"), ropt (.ch 'r'), wsP, ropt (rcat [word_ws ("a"), rlit ("trámite")])]

def arch13 : Re :=
  rcat [word_ws ("tener"), word_ws ("por"), rlit ("desistid"),
    .cls false [.one 'o', .one 'a']]

def arch14 : Re :=
  rcat [rlit ("declara"), ropt (.ch 'r'), wsP, word_ws ("la"), word_ws ("falta"),
    word_ws ("de"), rlit ("competencia")]

def arch15 : Re :=
  rcat [word_ws ("falta"), word_ws ("de"), word_ws ("competencia"), word_ws ("de"),
    word_ws ("esta"), rlit ("comisión")]

def arch16 : Re := rcat [word_ws ("terminación"), optw ("del"), rlit ("procedimiento")]

def arch17 : Re :=
  rcat [rlit ("declara"), ropt (.ch 'r'), wsP, optw ("la"),
    ralt [rlit ("terminación"), rlit ("finalización")]]

def arch18 : Re :=
  rcat [rlit ("declara"), ropt (.ch 'r'), wsP, word_ws ("finalizado"), optw ("el"),
    rlit ("procedimiento")]

def arch19 : Re :=
  rcat [word_ws ("considerar"), rlit ("que"), .rep 0 (some 100) false dotA,
    word_ws ("no"), word_ws ("se"), word_ws ("ha"),
    ralt [rlit ("producido"), rlit ("detectado")]]

def arch20 : Re :=
  rcat [word_ws ("considerar"), rlit ("que"), .rep 0 (some 50) false dotA,
    word_ws ("a"), word_ws ("la"), rlit ("vista"), .rep 0 (some 50) false dotA, rlit ("no")]

def arch21 : Re :=
  rcat [word_ws ("no"), word_ws ("procede"), optw ("la"),
    ralt [rlit ("suspensión"), rlit ("actuación")]]

def arch22 : Re :=
  rcat [rlit ("declara"), ropt (.ch 'r'), wsP, optw ("la"), rlit ("infrautilización")]

def arch23 : Re :=
  rcat [word_ws ("informar"), word_ws ("a"), .rep 5 (some 80) false dotA, wsP, rlit ("que")]

def arch24 : Re := rcat [word_ws ("dar"), rlit ("traslado")]

def arch25 : Re :=
  rcat [word_ws ("corregir"), optw ("el"), ralt [rlit ("párrafo"), rlit ("error")]]

def arch26 : Re :=
  rcat [word_ws ("aclarar"), optw ("que"), optw ("la"),
    ralt [rlit ("referencia"), rlit ("resolución")]]

def arch27 : Re :=
  rcat [rlit ("declara"), ropt (.ch 'r'), wsP, word_ws ("completa"), optw ("la"),
    rlit ("solicitud")]

def arch28 : Re :=
  rcat [word_ws ("considerar"), rlit ("que"), ropt (.ch ','), wsP, word_ws ("conforme"),
    word_ws ("a"), optw ("la"), rlit ("información")]

def arch29 : Re :=
  rcat [word_ws ("considerar"), word_ws ("que"), optw ("el"),
    ralt [rlit ("reparto"), rlit ("reconocimiento")]]

def arch30 : Re :=
  rcat [word_ws ("remitir"), optw ("el"), ralt [rlit ("expediente"), rlit ("actuaciones")]]

/-- The ARCHIVADO pattern group, in declaration order. -/
def archPatterns : List Re :=
  [arch01, arch02, arch03, arch04, arch05, arch06, arch07, arch08, arch09, arch10,
   arch11, arch12, arch13, arch14, arch15, arch16, arch17, arch18, arch19, arch20,
   arch21, arch22, arch23, arch24, arch25, arch26, arch27, arch28, arch29, arch30]

def dese01 : Re :=
  rcat [desestimV, .rep 0 (some 5) false (rcat [wsP, rplus nonwsC]), wsP,
    optw ("el"), optw ("presente"),
    ralt [rlit ("conflicto"), rlit ("recurso"), rlit ("reclamación"),
      rlit ("solicitud"), rlit ("pretensión")]]

def dese02 : Re :=
  rcat [desestimV, wsP, optw ("íntegramente"), optw ("el"), optw ("presente"),
    ralt [rlit ("conflicto"), rlit ("recurso"), rlit ("reclamación")]]

def dese03 : Re := rcat [desestimV, wsP, optw ("los"), rlit ("conflictos")]

def dese04 : Re :=
  rcat [desestimV, wsP, optw ("las"),
    ralt [rlit ("reclamaciones"), rlit ("solicitudes"), rlit ("pretensiones")]]

def dese05 : Re :=
  rcat [ralt [rlit ("ÚNICO"), rlit ("Único"), rlit ("PRIMERO"), rlit ("Primero")],
    rplus (.cls false [.one '.', .space, .one ':', .one '-']), wsS,
    .cls false [.one 'D', .one 'd'], rlit ("esestim"),
    ralt [rcat [.ch 'a', ropt (.ch 'r')], .ch 'e']]

def dese06 : Re :=
  rcat [word_ws ("no"), optw ("ha"), word_ws ("lugar"), optw ("a"), optw ("la"),
    ralt [rlit ("estimación"), rlit ("reclamación")]]

def dese07 : Re :=
  rcat [word_ws ("desestimación"), optw ("de"),
    ropt (rcat [rlit ("lo"), ropt (.ch 's'), wsP]),
    ralt [rcat [rlit ("conflicto"), ropt (.ch 's')], rcat [rlit ("recurso"), ropt (.ch 's')]]]

def dese08 : Re :=
  rcat [rlit ("desestima"), ropt (.ch 'r'), ropt (.ch ','), wsP, word_ws ("sin"),
    rlit ("perjuicio")]

def dese09 : Re :=
  rcat [word_ws ("declarar"), word_ws ("conforme"), word_ws ("a"), word_ws ("derecho"),
    optw ("la"),
    ralt [rlit ("denegación"), rlit ("respuesta"), rlit ("comunicación"), rlit ("actuación")]]

def dese10 : Re :=
  rcat [rlit ("confirma"), ropt (.ch 'r'), wsP, word_ws ("la"),
    ralt [rlit ("denegación"), rlit ("actuación")]]

def dese11 : Re :=
  rcat [word_ws ("denegar"), optw ("la"),
    ralt [rlit ("autorización"), rlit ("petición"), rlit ("solicitud"), rlit ("acceso")]]

def dese12 : Re := rcat [word_ws ("denegar"), word_ws ("a"), rplus wrdC]

def dese13 : Re :=
  rcat [word_ws ("queda"), word_ws ("justificada"), optw ("la"), rlit ("denegación")]

def dese14 : Re :=
  rcat [ralt [rlit ("fallo"), rlit ("fallamos")], .rep 0 (some 100) false dotA,
    rlit ("desestim"),
    ralt [rcat [.ch 'a', ropt (.ch 'r')], rcat [rlit ("amo"), ropt (.ch 's')]]]

def dese15 : Re :=
  rcat [ralt [rlit ("fallo"), rlit ("fallamos")], .rep 0 (some 100) false dotA,
    rlit ("confirma"), ropt (.ch 'r'), wsP, optw ("la"), rlit ("resolución")]

/-- The DESESTIMADO pattern group, in declaration order. -/
def desePatterns : List Re :=
  [dese01, dese02, dese03, dese04, dese05, dese06, dese07, dese08, dese09, dese10,
   dese11, dese12, dese13, dese14, dese15]

def esti01 : Re :=
  rcat [estimV,
    ropt (rcat [ropt (.ch ','), wsS, .rep 0 (some 100) true (.cls true [.one '.']),
      ropt (.ch ',')]),
    wsS, optw ("el"),
    ralt [rlit ("conflicto"), rlit ("recurso"), rlit ("reclamación"), rlit ("solicitud")]]

def esti02 : Re :=
  rcat [estimV, wsP, optw ("parcialmente"), optw ("íntegramente"), optw ("el"),
    optw ("presente"),
    ralt [rlit ("conflicto"), rlit ("recurso"), rlit ("reclamación")]]

def esti03 : Re := rcat [estimV, wsP, optw ("la"), rlit ("pretensión")]

def esti04 : Re :=
  rcat [estimV, wsP, optw ("el"), word_ws ("escrito"), word_ws ("de"),
    rlit ("disconformidad")]

def esti05 : Re := rcat [estimV, wsP, optw ("parcialmente"), optw ("los"), rlit ("conflictos")]

def esti06 : Re :=
  rcat [estimV, wsP, optw ("las"), ralt [rlit ("reclamaciones"), rlit ("solicitudes")]]

def esti07 : Re := rcat [estimV, ropt (.ch ','), wsP, rlit ("exclusivamente")]

def esti08 : Re :=
  rcat [word_ws ("estimación"), optw ("parcial"), optw ("de"),
    ropt (rcat [rlit ("lo"), ropt (.ch 's'), wsP]),
    ralt [rcat [rlit ("conflicto"), ropt (.ch 's')], rcat [rlit ("recurso"), ropt (.ch 's')]]]

def esti09 : Re :=
  rcat [rlit ("declara"), ropt (.ch 'r'), wsP, optw ("la"),
    ralt [rlit ("nulidad"), rlit ("vulneración")]]

def esti10 : Re :=
  rcat [rlit ("ordena"), ropt (.ch 'r'), wsP, word_ws ("a"),
    .rep 5 (some 50) false dotA, wsP,
    ralt [rlit ("que"), rcat [word_ws ("el"), rlit ("cumplimiento")]]]

def esti11 : Re := rcat [rlit ("deja"), ropt (.ch 'r'), wsP, word_ws ("sin"), rlit ("efecto")]

def esti12 : Re :=
  rcat [rlit ("requeri"), ropt (.ch 'r'), wsP, word_ws ("a"),
    .rep 5 (some 50) false dotA, wsP,
    ralt [rlit ("que"), rcat [word_ws ("para"), rlit ("que")]]]

def esti13 : Re := rcat [word_ws ("reconocer"), optw ("el"), rlit ("derecho")]

def esti14 : Re :=
  rcat [word_ws ("reconocer"), word_ws ("a"), optw ("la"),
    ralt [rlit ("empresa"), rlit ("sociedad"), rlit ("particular"), rlit ("fundación"),
      rlit ("distribuidora")]]

def esti15 : Re :=
  rcat [word_ws ("reconocer"), word_ws ("a"),
    .cls false [.range 'A' 'Z', .one '"', .one (Char.ofNat 39), .one '"',
      .one '[', .one '(']]

def esti16 : Re :=
  rcat [optw ("se"), word_ws ("reconoce"), word_ws ("el"), rlit ("derecho")]

def esti17 : Re :=
  rcat [word_ws ("anular"), optw ("el"), optw ("la"),
    ralt [rlit ("comunicación"), rlit ("resolución"), rlit ("acto"),
      rlit ("denegación"), rlit ("contenido")]]

def esti18 : Re :=
  rcat [rlit ("declara"), ropt (.ch 'r'), wsP, word_ws ("no"),
    ralt [rlit ("conforme"),
      rcat [rlit ("ajustad"), .cls false [.one 'o', .one 'a'], ropt (.ch 's')]],
    wsP, word_ws ("a"), ralt [.ch 'd', .ch 'D'], rlit ("erecho")]

def esti19 : Re :=
  rcat [optw ("se"), word_ws ("considera"), word_ws ("sin"), rlit ("efecto")]

def esti20 : Re :=
  rcat [word_ws ("hacer"), word_ws ("efectivo"), word_ws ("el"), rlit ("derecho")]

def esti21 : Re :=
  rcat [rlit ("declara"), ropt (.ch 'r'), wsP, word_ws ("el"), word_ws ("derecho"),
    rlit ("de")]

def esti22 : Re :=
  rcat [word_ws ("dar"), word_ws ("conformidad"), optw ("previa"), optw ("a"), optw ("la"),
    ralt [rlit ("decisión"), rlit ("operación"), rlit ("solicitud")]]

def esti23 : Re :=
  rcat [rlit ("declara"), ropt (.ch 'r'), wsP, word_ws ("que"), optw ("las"),
    rlit ("condiciones"), .rep 5 (some 500) false dotA, word_ws ("dan"),
    optw ("adecuado"), rlit ("cumplimiento")]

def esti24 : Re :=
  rcat [ralt [rlit ("fallo"), rlit ("fallamos")], .rep 0 (some 100) false dotA,
    rlit ("estim"),
    ralt [rcat [.ch 'a', ropt (.ch 'r')], rcat [rlit ("amo"), ropt (.ch 's')]]]

def esti25 : Re :=
  rcat [ralt [rlit ("fallo"), rlit ("fallamos")], .rep 0 (some 100) false dotA,
    rlit ("anula"), ropt (.ch 'r'), wsP, optw ("la"), rlit ("resolución")]

def esti26 : Re := rcat [word_ws ("resolver"), optw ("las"), rlit ("discrepancias")]

def esti27 : Re :=
  rcat [word_ws ("resolver"), optw ("el"), rlit ("conflicto"),
    .rep 0 (some 50) false dotA,
    ralt [rlit ("declarando"), rcat [word_ws ("a"), rlit ("favor")]]]

def esti28 : Re := rcat [word_ws ("al"), word_ws ("objeto"), word_ws ("de"), rlit ("garantizar")]

/-- The ESTIMADO pattern group, in declaration order. -/
def estiPatterns : List Re :=
  [esti01, esti02, esti03, esti04, esti05, esti06, esti07, esti08, esti09, esti10,
   esti11, esti12, esti13, esti14, esti15, esti16, esti17, esti18, esti19, esti20,
   esti21, esti22, esti23, esti24, esti25, esti26, esti27, esti28]

/-- ResolutionClassifier.CATEGORIES: insertion order ARCHIVADO, DESESTIMADO,
ESTIMADO (a Python dict preserves insertion order). -/
def CATEGORIES : List (String × List Re) :=
  [("ARCHIVADO", archPatterns), ("DESESTIMADO", desePatterns), ("ESTIMADO", estiPatterns)]

/-! ### Section patterns (compiled MULTILINE and DOTALL, case sensitive). -/

/-- The ordinal openers accepted by the strict section pattern. -/
def strictOrdinals : Re :=
  ralt [rlit ("PRIMERO"), rlit ("ÚNICO"), rlit ("ÚNICA"), rlit ("PRIMERA"),
    rlit ("SEGUNDO"), rlit ("Primero"), rlit ("Único"), rlit ("Única"),
    rlit ("Primera"), rlit ("Segundo"), rlit ("1º"), rlit ("1."), rlit ("I.")]

/-- The closing sentinels of the strict section pattern, as a lookahead body. -/
def strictSentinels : Re :=
  ralt [rlit ("Comuníquese"), rlit ("El presente acuerdo"), rlit ("El presente resolución"),
    rlit ("Madrid,"), rlit ("Notifíquese"), rlit ("COMISIÓN NACIONAL"), .eos]

/-- The closing sentinels of the flexible section patterns. -/
def flexSentinels : Re :=
  ralt [rlit ("Comuníquese"), rlit ("El presente"), rlit ("Madrid,"),
    rlit ("Notifíquese"), .eos]

/-- SECTION_PATTERNS_STRICT, the single strict pattern: start of line,
optional blanks, the keyword (group 1), optional colon or period, one
or more newlines, then group 2 = ordinal opener, separator class,
rest of line, one-or-more lazy any-char, all up to a sentinel lookahead. -/
def strictPat : Re :=
  rcat [ralt [.bol, .ch '\n'], wsS,
    .grp 1 (ralt [rlit ("ACUERDA"), rlit ("RESUELVE")]),
    wsS, ropt (.cls false [.one ':', .one '.']), wsS,
    rplus (.ch '\n'),
    .grp 2 (rcat [strictOrdinals,
      .cls false [.one '.', .one '-', .one ':', .space],
      rstar (.cls true [.one '\n']),
      .rep 1 none true dotA]),
    .look false strictSentinels]

/-- First flexible pattern: keyword then at least 50 lazy characters up to
a sentinel lookahead. -/
def flexPat1 : Re :=
  rcat [ralt [.bol, .ch '\n'], wsS,
    .grp 1 (ralt [rlit ("ACUERDA"), rlit ("RESUELVE")]),
    wsS, ropt (.cls false [.one ':', .one '.']), wsS,
    rplus (.ch '\n'),
    .grp 2 (.rep 50 none true dotA),
    .look false flexSentinels]

/-- Second flexible pattern: inline keyword followed directly by an
operative verb (group 2) and 50 to 800 lazy characters (group 3). -/
def flexPat2 : Re :=
  rcat [.wordB,
    .grp 1 (ralt [rlit ("ACUERDA"), rlit ("RESUELVE")]), wsP,
    .grp 2 (ralt [rlit ("declarar"), rlit ("desestimar"), rlit ("estimar"),
      rlit ("archivar"), rlit ("inadmitir"), rlit ("aceptar"), rlit ("informar"),
      rlit ("tener")]),
    .grp 3 (.rep 50 (some 800) true dotA),
    .look false flexSentinels]

/-! ### First-point patterns (IGNORECASE and DOTALL, re.search). -/

/-- First pattern of extract-first-point: an ordinal opener, the rest of
its line, then further lines not opening with a long capitalised word or
a second-ordinal marker. -/
def fpPat1 : Re :=
  rcat [.bos, .grp 1 (rcat [
    ralt [rlit ("ÚNICO"), rlit ("ÚNICA"), rlit ("PRIMERO"), rlit ("PRIMERA"),
      rlit ("1º"), rlit ("1."), rlit ("I.")],
    rstar (.cls true [.one '\n']),
    rstar (rcat [.ch '\n',
      .look true (ralt [
        rcat [.rep 4 none false (.cls false [.range 'A' 'Z']), ropt (.ch '.'), wsC],
        rlit ("SEGUNDO"), rlit ("SEGUNDA"), rlit ("2º"), rlit ("2."), rlit ("II.")]),
      rstar dotA])])]

/-- Second pattern of extract-first-point: a 50-to-500 lazy slice up to a
second-ordinal marker or the end. -/
def fpPat2 : Re :=
  rcat [.bos, .grp 1 (.rep 50 (some 500) true dotA),
    .look false (ralt [rlit ("SEGUNDO"), rlit ("SEGUNDA"), rlit ("2º"), rlit ("2."),
      rlit ("II."), .eolF])]

/-! ### Fallback patterns of classify-fallback. -/

/-- Judicial-verdict detection pattern (IGNORECASE). -/
def sentenciaPat : Re :=
  ralt [rlit ("FALLO"), rlit ("FALLAMOS"),
    rcat [word_ws ("Audiencia"), rlit ("Nacional")],
    rcat [word_ws ("Tribunal"), rlit ("Supremo")],
    rlit ("SENTENCIA")]

/-- Verdict-section extraction pattern (IGNORECASE and DOTALL): the ruling
keyword, optional separators, group 1 = 50 to 1500 lazy characters, then a
closing sentinel (matched, not looked ahead). -/
def falloPat : Re :=
  rcat [ralt [rlit ("FALLO"), rlit ("FALLAMOS")],
    rstar (.cls false [.one ':', .space]),
    .grp 1 (.rep 50 (some 1500) true dotA),
    ralt [rlit ("Notifíquese"),
      rcat [word_ws ("Así"),
        ralt [rcat [word_ws ("por"), rlit ("esta")],
          rcat [word_ws ("lo"), rlit ("pronunciamos")]]],
      rlit ("firmamos"), .eos]]

def hcEst1 : Re :=
  rcat [optw ("se"), word_ws ("estima"), optw ("el"),
    ralt [rlit ("recurso"), rlit ("conflicto")]]

def hcEst2 : Re := rcat [word_ws ("anulamos"), optw ("la"), rlit ("resolución")]

def hcEst3 : Re := rcat [word_ws ("reconocer"), optw ("el"), rlit ("derecho")]

def hcDes1 : Re :=
  rcat [optw ("se"), word_ws ("desestima"), optw ("el"),
    ralt [rlit ("recurso"), rlit ("conflicto")]]

def hcDes2 : Re := rcat [word_ws ("confirmamos"), optw ("la"), rlit ("resolución")]

def hcDes3 : Re := rcat [word_ws ("no"), word_ws ("ha"), rlit ("lugar")]

def hcArc1 : Re := rcat [word_ws ("archivo"), word_ws ("del"), rlit ("procedimiento")]

def hcArc2 : Re := rcat [word_ws ("procedimiento"), optw ("ha"), rlit ("concluido")]

def hcArc3 : Re := rcat [rlit ("declara"), ropt (.ch 'r'), wsP, rlit ("concluso")]

/-- Here the dot is dotN: this group is searched with IGNORECASE only,
without DOTALL. -/
def hcArc4 : Re :=
  rcat [word_ws ("informar"), word_ws ("a"), .rep 5 (some 50) false dotN, wsP, rlit ("que")]

def hcArc5 : Re := rcat [word_ws ("dar"), rlit ("traslado")]

def hcArc6 : Re :=
  rcat [word_ws ("se"), word_ws ("acomoda"), word_ws ("a"), optw ("la"), optw ("citada"),
    rlit ("resolución")]

/-- The high-confidence fallback dictionary, insertion order ESTIMADO,
DESESTIMADO, ARCHIVADO. -/
def HIGH_CONFIDENCE : List (String × List Re) :=
  [("ESTIMADO", [hcEst1, hcEst2, hcEst3]),
   ("DESESTIMADO", [hcDes1, hcDes2, hcDes3]),
   ("ARCHIVADO", [hcArc1, hcArc2, hcArc3, hcArc4, hcArc5, hcArc6])]

/-- The shared conjugation tail: a, ar, e, accented o, or ado. -/
def verbTail : Re :=
  ralt [rcat [.ch 'a', ropt (.ch 'r')], .ch 'e', .ch 'ó', rlit ("ado")]

def lrDese : Re := rcat [.wordB, rlit ("desestim"), verbTail, .wordB]

def lrEsti : Re :=
  rcat [.wordB, rlit ("estim"), verbTail, .wordB,
    .look true (rcat [wsS, ralt [rlit ("que"), rlit ("conveniente")]])]

def lrArch : Re :=
  rcat [.wordB,
    ralt [rcat [rlit ("archiv"), verbTail],
      rcat [rlit ("conclus"), .cls false [.one 'o', .one 'a']],
      rlit ("inadmit")],
    .wordB]

/-- The last-resort dictionary, insertion order DESESTIMADO, ESTIMADO,
ARCHIVADO. -/
def LAST_RESORT : List (String × List Re) :=
  [("DESESTIMADO", [lrDese]), ("ESTIMADO", [lrEsti]), ("ARCHIVADO", [lrArch])]

/-! ### Text normalisation, mirroring normalize-text. -/

/-- Single-character replacements: dash variants to hyphen, typographic
quotes and guillemets to ASCII quotes (the source lists the dash
characters twice, by escape and literally; the map is the same). -/
def normCh (c : Char) : Char :=
  if c = '–' || c = '—' || c = '−' then '-'
  else if c = '“' || c = '”' || c = '«' || c = '»' then '"'
  else if c = '‘' || c = '’' then Char.ofNat 39
  else c

/-- Leading bare page number: caret, digits, optional blanks, newline
(the caret is not multiline here, so only a string-initial match exists). -/
def nPat1 : Re := rcat [.bos, rplus dgtC, wsS, .ch '\n']

/-- Leading page number directly before a known section opener. -/
def nPat2 : Re :=
  rcat [.bos, rplus dgtC, wsP,
    .look false (ralt [rlit ("ÚNICO"), rlit ("PRIMERO"), rlit ("Único"), rlit ("Primero")])]

/-- A run of horizontal whitespace (whitespace other than newline). -/
def nPat3 : Re := rplus (.cls true [.nonspace, .one '\n'])

/-- Three or more consecutive newlines. -/
def nPat4 : Re := .rep 3 none false (.ch '\n')

/-- Horizontal ellipsis character replaced by three periods. -/
def expandEll (t : List Char) : List Char :=
  t.foldr (fun c acc => if c = '…' then '.' :: '.' :: '.' :: acc else c :: acc) []

/-- normalize-text: character replacements, the four substitutions, then
the ellipsis replacement, in source order. -/
def normalizeText (t : List Char) : List Char :=
  let t := t.map normCh
  let t := reSub false nPat1 [] t
  let t := reSub false nPat2 [] t
  let t := reSub false nPat3 [' '] t
  let t := reSub false nPat4 ['\n', '\n'] t
  expandEll t

/-! ### Section extraction, mirroring extract-resolution-section. -/

/-- One collected section match: start offset, keyword, content. -/
structure SecMatch where
  mstart : Nat
  mtype : List Char
  mcontent : List Char
deriving DecidableEq

/-- Content of capturing group i as a slice of the searched text (empty
when the group did not participate). -/
def capSlice (s : List Char) (caps : Caps) (i : Nat) : List Char :=
  match capGet caps i with
  | some (a, b) => sliceL s a b
  | none => []

/-- The strict matches: for each finditer hit, the start offset and
groups 1 and 2. -/
def strictMatches (t : List Char) : List SecMatch :=
  (finditer false strictPat t).map fun r =>
    ⟨r.sstart, capSlice t r.scaps 1, capSlice t r.scaps 2⟩

/-- Content of a flexible match: groups 2 and 3 concatenated when group 3
participated (lastindex at least 3), otherwise group 2. -/
def flexContent (t : List Char) (r : SearchRes) : List Char :=
  match capGet r.scaps 3 with
  | some _ => capSlice t r.scaps 2 ++ capSlice t r.scaps 3
  | none => capSlice t r.scaps 2

/-- The flexible matches, first pattern then second, as the nested source
loop produces them. -/
def flexMatches (t : List Char) : List SecMatch :=
  (finditer false flexPat1 t ++ finditer false flexPat2 t).map fun r =>
    ⟨r.sstart, capSlice t r.scaps 1, flexContent t r⟩

/-- Stable insertion of a section match into a list sorted by start. -/
def insByStart (a : SecMatch) : List SecMatch → List SecMatch
  | [] => [a]
  | b :: l => if b.mstart < a.mstart then b :: insByStart a l else a :: b :: l

/-- Stable sort by start offset, the effect of list.sort with the start
offset as key. -/
def sortByStart (l : List SecMatch) : List SecMatch := l.foldr insByStart []

/-- Sort by start offset and take the last element: the selection rule of
extract-resolution-section. -/
def pickLast (l : List SecMatch) : Option SecMatch := (sortByStart l).getLast?

/-- Python str.strip on both ends. -/
def stripL (t : List Char) : List Char :=
  ((t.dropWhile isSpaceCh).reverse.dropWhile isSpaceCh).reverse

/-- Uppercasing a section label. -/
def upperL (t : List Char) : List Char := t.map upperCh

/-- clean-section: uppercase the label, strip the content, collapse blank
lines. -/
def cleanSection (stype content : List Char) : List Char × List Char :=
  (upperL stype, reSub false nPat4 ['\n', '\n'] (stripL content))

/-- extract-resolution-section: strict matches first; if none, flexible
matches; pick the match with the largest start offset; clean it. -/
def extractResolutionSection (t : List Char) : Option (List Char × List Char) :=
  match pickLast (strictMatches t) with
  | some m => some (cleanSection m.mtype m.mcontent)
  | none =>
    match pickLast (flexMatches t) with
    | some m => some (cleanSection m.mtype m.mcontent)
    | none => none

/-- extract-first-point: first pattern, then second, stripping group 1;
otherwise the first 500 characters of the section. -/
def extractFirstPoint (content : List Char) : List Char :=
  match reSearch true fpPat1 content with
  | some r => stripL (capSlice content r.scaps 1)
  | none =>
    match reSearch true fpPat2 content with
    | some r => stripL (capSlice content r.scaps 1)
    | none => content.take 500

/-! ### Classification, mirroring classify and classify-fallback. -/

/-- The classification record returned for every document. -/
structure ClassificationResult where
  categoria : String
  confianza : String
  texto_clave : List Char
  seccion_encontrada : Bool
deriving DecidableEq

/-- First matching pattern of a group, returning the matched text
(IGNORECASE search, patterns in listed order). -/
def searchGroup (pats : List Re) (t : List Char) : Option (List Char) :=
  match pats with
  | [] => none
  | p :: ps =>
    match reSearchM true p t with
    | some m => some m
    | none => searchGroup ps t

/-- First matching category, groups in listed order: the double loop over
a category dictionary. -/
def searchCats (cats : List (String × List Re)) (t : List Char) : Option (String × List Char) :=
  match cats with
  | [] => none
  | (c, ps) :: rest =>
    match searchGroup ps t with
    | some m => some (c, m)
    | none => searchCats rest t

/-- The judicial-verdict tier of classify-fallback: when the document
looks like a court ruling and a verdict section is found and a category
pattern matches inside it, return that category with confidence media
and the SENTENCIA tag; otherwise fall through. -/
def sentenciaTier (t : List Char) : Option ClassificationResult :=
  if (reSearch true sentenciaPat t).isSome then
    match reSearch true falloPat t with
    | some r =>
      match searchCats CATEGORIES (capSlice t r.scaps 1) with
      | some cm => some ⟨cm.1, "media", (String.toList ("[SENTENCIA] ")) ++ cm.2, false⟩
      | none => none
    | none => none
  else none

/-- The document-tail tier: the category patterns over the last 3000
characters. -/
def lastPartTier (t : List Char) : Option ClassificationResult :=
  (searchCats CATEGORIES (t.drop (t.length - 3000))).map fun cm =>
    ⟨cm.1, "baja", cm.2, false⟩

/-- The high-confidence-idiom tier over the whole document. -/
def highConfTier (t : List Char) : Option ClassificationResult :=
  (searchCats HIGH_CONFIDENCE t).map fun cm => ⟨cm.1, "baja", cm.2, false⟩

/-- The bare-verb-stem tier over the whole document. -/
def lastResortTier (t : List Char) : Option ClassificationResult :=
  (searchCats LAST_RESORT t).map fun cm =>
    ⟨cm.1, "baja", (String.toList ("[ÚLTIMO RECURSO] ")) ++ cm.2, false⟩

/-- classify-fallback: the four tiers in order, then the terminal
NO_CLASIFICADO record. -/
def classifyFallback (t : List Char) : ClassificationResult :=
  match sentenciaTier t with
  | some r => r
  | none =>
    match lastPartTier t with
    | some r => r
    | none =>
      match highConfTier t with
      | some r => r
      | none =>
        match lastResortTier t with
        | some r => r
        | none => ⟨"NO_CLASIFICADO", "baja", [], false⟩

/-- ResolutionClassifier.classify: normalise, locate the section, then
match the category patterns against the first point (confidence alta),
the whole section (media), or report NO_CLASIFICADO; without a section,
delegate to the fallback. -/
def classify (input : List Char) : ClassificationResult :=
  let text := normalizeText input
  match extractResolutionSection text with
  | none => classifyFallback text
  | some sc =>
    let fp := extractFirstPoint sc.2
    match searchCats CATEGORIES fp with
    | some cm => ⟨cm.1, "alta", cm.2, true⟩
    | none =>
      match searchCats CATEGORIES sc.2 with
      | some cm => ⟨cm.1, "media", cm.2, true⟩
      | none => ⟨"NO_CLASIFICADO", "baja", fp.take 100, true⟩

/-! ### The auxiliary rule engine of src/src/analysis/rules.py. -/

/-- A classification rule: positive pattern, category, priority, and
negative patterns that veto a positive match. -/
structure ClassificationRule where
  rname : String
  pattern : Re
  category : String
  priority : Nat
  negative_patterns : List Re
deriving DecidableEq

/-- ClassificationRule.matches: positive pattern found and no negative
pattern found (IGNORECASE). -/
def ruleMatches (r : ClassificationRule) (t : List Char) : Bool :=
  (reSearch true r.pattern t).isSome &&
    r.negative_patterns.all fun p => (reSearch true p t).isNone

def rule_desestimacion_total : ClassificationRule :=
  ⟨"desestimacion_total",
   rcat [word_ws ("se"), word_ws ("desestima"), ropt (.grp 1 (word_ws ("la"))),
     .grp 2 (ralt [rlit ("reclamación"), rlit ("solicitud"), rlit ("recurso")])],
   "DESESTIMADO", 10, []⟩

def rule_desestimacion_fallo : ClassificationRule :=
  ⟨"desestimacion_fallo",
   rcat [.grp 1 (ralt [rlit ("fallo"), rlit ("resuelve")]), rstar dotN, rlit ("desestim")],
   "DESESTIMADO", 10, []⟩

def rule_estimacion_total : ClassificationRule :=
  ⟨"estimacion_total",
   rcat [word_ws ("se"), word_ws ("estima"), ropt (.grp 1 (word_ws ("la"))),
     .grp 2 (ralt [rlit ("reclamación"), rlit ("solicitud"), rlit ("recurso")])],
   "ESTIMADO", 10,
   [rcat [word_ws ("no"), word_ws ("se"), rlit ("estima")],
    rcat [word_ws ("se"), rlit ("desestima")]]⟩

def rule_estimacion_parcial : ClassificationRule :=
  ⟨"estimacion_parcial",
   rcat [rlit ("estim"), .grp 1 (ralt [rlit ("ar"), rlit ("a")]), wsP, rlit ("parcialmente")],
   "ESTIMADO_PARCIAL", 8, []⟩

def rule_estimacion_fallo : ClassificationRule :=
  ⟨"estimacion_fallo",
   rcat [.grp 1 (ralt [rlit ("fallo"), rlit ("resuelve")]), rstar dotN, rlit ("estim")],
   "ESTIMADO", 9,
   [rcat [.grp 1 (ralt [rlit ("fallo"), rlit ("resuelve")]), rstar dotN, rlit ("desestim")]]⟩

def rule_archivo_actuaciones : ClassificationRule :=
  ⟨"archivo_actuaciones",
   rcat [rlit ("archiva"), ropt (.ch 'r'), wsP, ropt (.grp 1 (word_ws ("las"))),
     rlit ("actuaciones")],
   "ARCHIVADO", 10, []⟩

def rule_archivo_expediente : ClassificationRule :=
  ⟨"archivo_expediente",
   rcat [word_ws ("archivo"), word_ws ("del"), rlit ("expediente")],
   "ARCHIVADO", 10, []⟩

/-- DEFAULT_RULES in declaration order. -/
def DEFAULT_RULES : List ClassificationRule :=
  [rule_desestimacion_total, rule_desestimacion_fallo, rule_estimacion_total,
   rule_estimacion_parcial, rule_estimacion_fallo, rule_archivo_actuaciones,
   rule_archivo_expediente]

/-- Stable insertion by descending priority. -/
def insByPrio (a : ClassificationRule) :
    List ClassificationRule → List ClassificationRule
  | [] => [a]
  | b :: l => if a.priority < b.priority then b :: insByPrio a l else a :: b :: l

/-- The constructor sorts the rules once by descending priority, stably:
the effect of list.sort with reverse set. -/
def sortedRules : List ClassificationRule := DEFAULT_RULES.foldr insByPrio []

/-- RuleBasedClassifier.classify: first rule that matches, in sorted
order, returning its category; null when none applies. -/
def ruleClassify (t : List Char) : Option String :=
  (sortedRules.find? fun r => ruleMatches r t).map fun r => r.category

/-! ### Concrete test documents used by witnesses and counterexamples. -/

/-- A document with a strict RESUELVE section whose first point matches no
category pattern. -/
def docTomar : List Char := String.toList ("RESUELVE\nPRIMERO. Tomar nota.\nMadrid,")

/-- The singular denial phrase of the specification. -/
def docSingular : List Char := String.toList ("se desestima el conflicto")

/-- The plural denial phrase of the specification. -/
def docPlural : List Char := String.toList ("se desestiman los conflictos")

/-- A first point containing an archival trigger and a denial trigger. -/
def docArchDese : List Char :=
  String.toList ("RESUELVE\nPRIMERO. Archivar las actuaciones y desestimar el recurso interpuesto.\nMadrid,")

/-- A first point containing an archival trigger and the denial polarity
trap phrase. -/
def docTrapArch : List Char :=
  String.toList ("RESUELVE\nPRIMERO. Archivar las actuaciones y confirmar la denegación de acceso a la red.\nMadrid,")

/-- The denial polarity trap phrase alone. -/
def docTrapA : List Char := String.toList ("confirmar la denegación de acceso a la red")

/-- The granting polarity trap phrase alone. -/
def docTrapB : List Char :=
  String.toList ("anular la resolución impugnada y reconocer el derecho de la reclamante")

/-- Two RESUELVE sections: the earlier grants, the later denies. -/
def docTwoSections : List Char :=
  String.toList ("RESUELVE\nPRIMERO. Estimar el recurso interpuesto.\nMadrid,\nRESUELVE\nPRIMERO. Desestimar el recurso interpuesto.\nMadrid,")

/-- A judicial verdict with no administrative section. -/
def docSent : List Char :=
  String.toList ("FALLAMOS: Que debemos desestimar y desestimamos el recurso contencioso interpuesto contra la resolución impugnada. Notifíquese")

/-- Containment of a literal phrase in a document, via the engine. -/
def containsLit (s : String) (t : List Char) : Bool :=
  (reSearch false (rlit s) t).isSome

/-! ### Structural lemmas about the classification pipeline. -/

/-- The category returned by searchCats is a key of the category list. -/
theorem searchCats_fst_mem {cats : List (String × List Re)} {t : List Char}
    {cm : String × List Char} (h : searchCats cats t = some cm) :
    cm.1 ∈ cats.map Prod.fst := by
  induction cats with
  | nil => simp [searchCats] at h
  | cons hd tl ih =>
    obtain ⟨cc, ps⟩ := hd
    simp only [searchCats] at h
    cases hg : searchGroup ps t with
    | some mm =>
      rw [hg] at h
      cases h
      simp
    | none =>
      rw [hg] at h
      simpa using Or.inr (ih h)

/-- If some pattern of a group matches, the group search succeeds. -/
theorem searchGroup_isSome_of_mem {pats : List Re} {p : Re} {t : List Char}
    (hp : p ∈ pats) (hm : (reSearchM true p t).isSome) :
    (searchGroup pats t).isSome := by
  induction pats with
  | nil => simp at hp
  | cons q qs ih =>
    simp only [searchGroup]
    cases hq : reSearchM true q t with
    | some mm => simp
    | none =>
      rcases List.mem_cons.mp hp with rfl | hp2
      · rw [hq] at hm; simp at hm
      · exact ih hp2

/-- The keys of the category dictionary. -/
theorem categories_keys :
    CATEGORIES.map Prod.fst = ["ARCHIVADO", "DESESTIMADO", "ESTIMADO"] := rfl

/-- The keys of the high-confidence fallback dictionary. -/
theorem highconf_keys :
    HIGH_CONFIDENCE.map Prod.fst = ["ESTIMADO", "DESESTIMADO", "ARCHIVADO"] := rfl

/-- The keys of the last-resort dictionary. -/
theorem lastresort_keys :
    LAST_RESORT.map Prod.fst = ["DESESTIMADO", "ESTIMADO", "ARCHIVADO"] := rfl

/-- Shape of a judicial-tier result: confidence media, no section flag,
category a key of the category dictionary. -/
theorem sentenciaTier_shape {t : List Char} {r : ClassificationResult}
    (h : sentenciaTier t = some r) :
    r.confianza = "media" ∧ r.seccion_encontrada = false ∧
      r.categoria ∈ CATEGORIES.map Prod.fst := by
  unfold sentenciaTier at h
  split at h
  · cases hf : reSearch true falloPat t with
    | none => rw [hf] at h; cases h
    | some s =>
      rw [hf] at h
      dsimp only at h
      cases hs : searchCats CATEGORIES (capSlice t s.scaps 1) with
      | none => rw [hs] at h; cases h
      | some cm =>
        rw [hs] at h
        dsimp only at h
        cases h
        exact ⟨rfl, rfl, searchCats_fst_mem hs⟩
  · cases h

/-- Shape of a tail-tier result. -/
theorem lastPartTier_shape {t : List Char} {r : ClassificationResult}
    (h : lastPartTier t = some r) :
    r.confianza = "baja" ∧ r.seccion_encontrada = false ∧
      r.categoria ∈ CATEGORIES.map Prod.fst := by
  unfold lastPartTier at h
  cases hs : searchCats CATEGORIES (t.drop (t.length - 3000)) with
  | none => rw [hs] at h; cases h
  | some cm =>
    rw [hs] at h
    cases h
    exact ⟨rfl, rfl, searchCats_fst_mem hs⟩

/-- Shape of a high-confidence-tier result. -/
theorem highConfTier_shape {t : List Char} {r : ClassificationResult}
    (h : highConfTier t = some r) :
    r.confianza = "baja" ∧ r.seccion_encontrada = false ∧
      r.categoria ∈ HIGH_CONFIDENCE.map Prod.fst := by
  unfold highConfTier at h
  cases hs : searchCats HIGH_CONFIDENCE t with
  | none => rw [hs] at h; cases h
  | some cm =>
    rw [hs] at h
    cases h
    exact ⟨rfl, rfl, searchCats_fst_mem hs⟩

/-- Shape of a last-resort-tier result. -/
theorem lastResortTier_shape {t : List Char} {r : ClassificationResult}
    (h : lastResortTier t = some r) :
    r.confianza = "baja" ∧ r.seccion_encontrada = false ∧
      r.categoria ∈ LAST_RESORT.map Prod.fst := by
  unfold lastResortTier at h
  cases hs : searchCats LAST_RESORT t with
  | none => rw [hs] at h; cases h
  | some cm =>
    rw [hs] at h
    cases h
    exact ⟨rfl, rfl, searchCats_fst_mem hs⟩

/-- Fallback equation: the judicial tier fires. -/
theorem classifyFallback_eq_sent {t : List Char} {r : ClassificationResult}
    (h1 : sentenciaTier t = some r) : classifyFallback t = r := by
  unfold classifyFallback
  rw [h1]

/-- Fallback equation: the tail tier fires. -/
theorem classifyFallback_eq_last {t : List Char} {r : ClassificationResult}
    (h1 : sentenciaTier t = none) (h2 : lastPartTier t = some r) :
    classifyFallback t = r := by
  unfold classifyFallback
  rw [h1]
  dsimp only
  rw [h2]

/-- Fallback equation: the high-confidence tier fires. -/
theorem classifyFallback_eq_hc {t : List Char} {r : ClassificationResult}
    (h1 : sentenciaTier t = none) (h2 : lastPartTier t = none)
    (h3 : highConfTier t = some r) : classifyFallback t = r := by
  unfold classifyFallback
  rw [h1]
  dsimp only
  rw [h2]
  dsimp only
  rw [h3]

/-- Fallback equation: the last-resort tier fires. -/
theorem classifyFallback_eq_lr {t : List Char} {r : ClassificationResult}
    (h1 : sentenciaTier t = none) (h2 : lastPartTier t = none)
    (h3 : highConfTier t = none) (h4 : lastResortTier t = some r) :
    classifyFallback t = r := by
  unfold classifyFallback
  rw [h1]
  dsimp only
  rw [h2]
  dsimp only
  rw [h3]
  dsimp only
  rw [h4]

/-- Fallback equation: every tier exhausted. -/
theorem classifyFallback_eq_exhausted {t : List Char}
    (h1 : sentenciaTier t = none) (h2 : lastPartTier t = none)
    (h3 : highConfTier t = none) (h4 : lastResortTier t = none) :
    classifyFallback t = ⟨"NO_CLASIFICADO", "baja", [], false⟩ := by
  unfold classifyFallback
  rw [h1]
  dsimp only
  rw [h2]
  dsimp only
  rw [h3]
  dsimp only
  rw [h4]

/-- A key of any tier dictionary lies in the closed category set. -/
theorem keys_sub {c : String}
    (h : c ∈ (["ARCHIVADO", "DESESTIMADO", "ESTIMADO"] : List String) ∨
         c ∈ (["ESTIMADO", "DESESTIMADO", "ARCHIVADO"] : List String) ∨
         c ∈ (["DESESTIMADO", "ESTIMADO", "ARCHIVADO"] : List String)) :
    c ∈ (["ESTIMADO", "DESESTIMADO", "ARCHIVADO", "NO_CLASIFICADO"] : List String) := by
  simp only [List.mem_cons, List.not_mem_nil, or_false] at h ⊢
  rcases h with (h | h | h) | (h | h | h) | (h | h | h) <;> simp [h]

/-- Every fallback result carries one of the three decision categories or
NO_CLASIFICADO, has no section flag, and has confidence media only
through the judicial tier, baja otherwise. -/
theorem classifyFallback_shape (t : List Char) :
    (classifyFallback t).seccion_encontrada = false ∧
    ((classifyFallback t).categoria ∈
      (["ESTIMADO", "DESESTIMADO", "ARCHIVADO", "NO_CLASIFICADO"] : List String)) ∧
    ((classifyFallback t).confianza = "baja" ∨
      ((classifyFallback t).confianza = "media" ∧
        sentenciaTier t = some (classifyFallback t))) := by
  cases h1 : sentenciaTier t with
  | some r =>
    rw [classifyFallback_eq_sent h1]
    obtain ⟨hc, hs, hm⟩ := sentenciaTier_shape h1
    rw [categories_keys] at hm
    exact ⟨hs, keys_sub (Or.inl hm), Or.inr ⟨hc, rfl⟩⟩
  | none =>
    cases h2 : lastPartTier t with
    | some r =>
      rw [classifyFallback_eq_last h1 h2]
      obtain ⟨hc, hs, hm⟩ := lastPartTier_shape h2
      rw [categories_keys] at hm
      exact ⟨hs, keys_sub (Or.inl hm), Or.inl hc⟩
    | none =>
      cases h3 : highConfTier t with
      | some r =>
        rw [classifyFallback_eq_hc h1 h2 h3]
        obtain ⟨hc, hs, hm⟩ := highConfTier_shape h3
        rw [highconf_keys] at hm
        exact ⟨hs, keys_sub (Or.inr (Or.inl hm)), Or.inl hc⟩
      | none =>
        cases h4 : lastResortTier t with
        | some r =>
          rw [classifyFallback_eq_lr h1 h2 h3 h4]
          obtain ⟨hc, hs, hm⟩ := lastResortTier_shape h4
          rw [lastresort_keys] at hm
          exact ⟨hs, keys_sub (Or.inr (Or.inr hm)), Or.inl hc⟩
        | none =>
          rw [classifyFallback_eq_exhausted h1 h2 h3 h4]
          exact ⟨rfl, by simp, Or.inl rfl⟩

/-- When no section is found, classify delegates to the fallback on the
normalised text. -/
theorem classify_of_extract_none {input : List Char}
    (h : extractResolutionSection (normalizeText input) = none) :
    classify input = classifyFallback (normalizeText input) := by
  unfold classify
  dsimp only
  rw [h]

/-- Section found and a category matched in the first point: alta. -/
theorem classify_alta {input : List Char} {sc : List Char × List Char}
    {cm : String × List Char}
    (h : extractResolutionSection (normalizeText input) = some sc)
    (hfp : searchCats CATEGORIES (extractFirstPoint sc.2) = some cm) :
    classify input = ⟨cm.1, "alta", cm.2, true⟩ := by
  unfold classify
  dsimp only
  rw [h]
  dsimp only
  rw [hfp]

/-- Section found, first point unmatched, whole section matched: media. -/
theorem classify_media {input : List Char} {sc : List Char × List Char}
    {cm : String × List Char}
    (h : extractResolutionSection (normalizeText input) = some sc)
    (hfp : searchCats CATEGORIES (extractFirstPoint sc.2) = none)
    (hsc : searchCats CATEGORIES sc.2 = some cm) :
    classify input = ⟨cm.1, "media", cm.2, true⟩ := by
  unfold classify
  dsimp only
  rw [h]
  dsimp only
  rw [hfp]
  dsimp only
  rw [hsc]

/-- Section found but nothing matched: NO_CLASIFICADO with the first 100
characters of the first point. -/
theorem classify_nc {input : List Char} {sc : List Char × List Char}
    (h : extractResolutionSection (normalizeText input) = some sc)
    (hfp : searchCats CATEGORIES (extractFirstPoint sc.2) = none)
    (hsc : searchCats CATEGORIES sc.2 = none) :
    classify input =
      ⟨"NO_CLASIFICADO", "baja", (extractFirstPoint sc.2).take 100, true⟩ := by
  unfold classify
  dsimp only
  rw [h]
  dsimp only
  rw [hfp]
  dsimp only
  rw [hsc]

/-- When a pattern of the first category group matches, searchCats
returns that category with the group result. -/
theorem searchCats_cons_some {c : String} {ps : List Re}
    {rest : List (String × List Re)} {t m : List Char}
    (hg : searchGroup ps t = some m) :
    searchCats ((c, ps) :: rest) t = some (c, m) := by
  simp only [searchCats]
  rw [hg]

/-! ### Lemmas about the stable sort by start offset. -/

theorem insByStart_ne_nil (a : SecMatch) (l : List SecMatch) :
    insByStart a l ≠ [] := by
  cases l with
  | nil => simp [insByStart]
  | cons b t =>
    simp only [insByStart]
    split <;> simp

theorem sortByStart_ne_nil {l : List SecMatch} (h : l ≠ []) :
    sortByStart l ≠ [] := by
  cases l with
  | nil => exact absurd rfl h
  | cons a t => exact insByStart_ne_nil a (sortByStart t)

theorem exists_getLast?_some {l : List SecMatch} (h : l ≠ []) :
    ∃ b, l.getLast? = some b := by
  induction l with
  | nil => exact absurd rfl h
  | cons a t ih =>
    cases t with
    | nil => exact ⟨a, rfl⟩
    | cons c u =>
      rw [List.getLast?_cons_cons]
      exact ih (by simp)

theorem mem_insByStart {a x : SecMatch} (l : List SecMatch) :
    x ∈ insByStart a l ↔ x = a ∨ x ∈ l := by
  induction l with
  | nil => simp [insByStart]
  | cons b t ih =>
    simp only [insByStart]
    split
    · simp only [List.mem_cons, ih]
      tauto
    · simp only [List.mem_cons]

theorem mem_sortByStart {x : SecMatch} (l : List SecMatch) :
    x ∈ sortByStart l ↔ x ∈ l := by
  induction l with
  | nil => simp [sortByStart]
  | cons a t ih =>
    show x ∈ insByStart a (sortByStart t) ↔ _
    rw [mem_insByStart, ih]
    simp

theorem pairwise_insByStart {a : SecMatch} {l : List SecMatch}
    (hl : l.Pairwise fun x y => x.mstart ≤ y.mstart) :
    (insByStart a l).Pairwise fun x y => x.mstart ≤ y.mstart := by
  induction l with
  | nil => simp [insByStart]
  | cons b t ih =>
    rcases List.pairwise_cons.mp hl with ⟨hb, ht⟩
    simp only [insByStart]
    split
    · rename_i hba
      refine List.pairwise_cons.mpr ⟨?_, ih ht⟩
      intro x hx
      rcases (mem_insByStart t).mp hx with rfl | hxt
      · exact Nat.le_of_lt hba
      · exact hb x hxt
    · rename_i hba
      refine List.pairwise_cons.mpr ⟨?_, hl⟩
      intro x hx
      rcases List.mem_cons.mp hx with rfl | hxt
      · exact Nat.le_of_not_lt hba
      · exact Nat.le_trans (Nat.le_of_not_lt hba) (hb x hxt)

theorem pairwise_sortByStart (l : List SecMatch) :
    (sortByStart l).Pairwise fun x y => x.mstart ≤ y.mstart := by
  induction l with
  | nil => simp [sortByStart]
  | cons a t ih => exact pairwise_insByStart ih

theorem mem_of_getLast?_some :
    ∀ {L : List SecMatch} {b : SecMatch}, L.getLast? = some b → b ∈ L := by
  intro L
  induction L with
  | nil => intro b h; cases h
  | cons a t ih =>
    intro b h
    cases t with
    | nil =>
      simp only [List.getLast?_singleton, Option.some.injEq] at h
      simp [h]
    | cons c u =>
      rw [List.getLast?_cons_cons] at h
      exact List.mem_cons_of_mem a (ih h)

theorem getLast?_is_max :
    ∀ {L : List SecMatch} {b : SecMatch},
      (L.Pairwise fun x y => x.mstart ≤ y.mstart) → L.getLast? = some b →
      ∀ m ∈ L, m.mstart ≤ b.mstart := by
  intro L
  induction L with
  | nil => intro b _ h; cases h
  | cons a t ih =>
    intro b hp hl m hm
    cases t with
    | nil =>
      simp only [List.getLast?_singleton, Option.some.injEq] at hl
      simp only [List.mem_singleton] at hm
      subst hm
      subst hl
      exact Nat.le_refl _
    | cons c u =>
      rw [List.getLast?_cons_cons] at hl
      rcases List.pairwise_cons.mp hp with ⟨ha, ht⟩
      rcases List.mem_cons.mp hm with rfl | hm2
      · exact ha b (mem_of_getLast?_some hl)
      · exact ih ht hl m hm2

/-- The selected section match has the largest start offset among all
collected matches. -/
theorem pickLast_max {l : List SecMatch} {b : SecMatch}
    (h : pickLast l = some b) : ∀ m ∈ l, m.mstart ≤ b.mstart :=
  fun m hm =>
    getLast?_is_max (pairwise_sortByStart l) h m ((mem_sortByStart l).mpr hm)

/-! ### The claims. -/

/-- C1: for every input string, including the empty string, classify
returns a fully populated ClassificationResult whose categoria is one of
ESTIMADO, DESESTIMADO, ARCHIVADO, NO_CLASIFICADO.  Totality (no
exception, all four fields set) is intrinsic to the embedding: classify
is a total Lean function into a structure with all fields required. -/
theorem c1_classify_closed_category_set (input : List Char) :
    (classify input).categoria ∈
      (["ESTIMADO", "DESESTIMADO", "ARCHIVADO", "NO_CLASIFICADO"] : List String) := by
  cases h : extractResolutionSection (normalizeText input) with
  | none =>
    rw [classify_of_extract_none h]
    exact (classifyFallback_shape (normalizeText input)).2.1
  | some sc =>
    cases hfp : searchCats CATEGORIES (extractFirstPoint sc.2) with
    | some cm =>
      rw [classify_alta h hfp]
      have hm := searchCats_fst_mem hfp
      rw [categories_keys] at hm
      exact keys_sub (Or.inl hm)
    | none =>
      cases hsc : searchCats CATEGORIES sc.2 with
      | some cm =>
        rw [classify_media h hfp hsc]
        have hm := searchCats_fst_mem hsc
        rw [categories_keys] at hm
        exact keys_sub (Or.inl hm)
      | none =>
        rw [classify_nc h hfp hsc]
        simp

set_option maxRecDepth 10000 in
set_option maxHeartbeats 2000000 in
/-- C2 counterexample: a document on which the strict tier succeeds yet
classify returns confidence baja, refuting the claim that strict-tier
success rules out LOW confidence even when no category pattern matches. -/
theorem c2_counterexample_strict_section_low :
    strictMatches (normalizeText docTomar) ≠ [] ∧
    (classify docTomar).confianza = "baja" := by
  refine ⟨by decide, by decide⟩

/-- C2 amended: when the strict tier succeeds, the section flag is set
and the confidence is alta or media when a category pattern matched, and
baja exactly in the NO_CLASIFICADO case. -/
theorem c2_amended_strict_section_confidence (input : List Char)
    (h : strictMatches (normalizeText input) ≠ []) :
    (classify input).seccion_encontrada = true ∧
    ((classify input).confianza = "alta" ∨ (classify input).confianza = "media" ∨
      ((classify input).confianza = "baja" ∧
        (classify input).categoria = "NO_CLASIFICADO")) := by
  obtain ⟨b, hb⟩ := exists_getLast?_some (sortByStart_ne_nil h)
  have hext : extractResolutionSection (normalizeText input) =
      some (cleanSection b.mtype b.mcontent) := by
    unfold extractResolutionSection
    have hp : pickLast (strictMatches (normalizeText input)) = some b := hb
    rw [hp]
  cases hfp : searchCats CATEGORIES
      (extractFirstPoint (cleanSection b.mtype b.mcontent).2) with
  | some cm =>
    rw [classify_alta hext hfp]
    exact ⟨rfl, Or.inl rfl⟩
  | none =>
    cases hsc : searchCats CATEGORIES (cleanSection b.mtype b.mcontent).2 with
    | some cm =>
      rw [classify_media hext hfp hsc]
      exact ⟨rfl, Or.inr (Or.inl rfl)⟩
    | none =>
      rw [classify_nc hext hfp hsc]
      exact ⟨rfl, Or.inr (Or.inr ⟨rfl, rfl⟩)⟩

set_option maxRecDepth 10000 in
set_option maxHeartbeats 2000000 in
/-- C2 witness: a strict-tier document with a matching first point gets
the section flag and a non-baja confidence. -/
theorem c2_witness_strict_section_confidence :
    (classify docArchDese).seccion_encontrada = true ∧
    ((classify docArchDese).confianza = "alta" ∨
      (classify docArchDese).confianza = "media" ∨
      ((classify docArchDese).confianza = "baja" ∧
        (classify docArchDese).categoria = "NO_CLASIFICADO")) :=
  c2_amended_strict_section_confidence docArchDese (by decide)

set_option maxRecDepth 10000 in
set_option maxHeartbeats 2000000 in
/-- C3 counterexample: a judicial verdict reached through the fallback
returns confidence media with the section flag unset, refuting the claim
that every fallback result has confidence baja. -/
theorem c3_counterexample_judicial_media :
    (classify docSent).confianza = "media" ∧
    (classify docSent).seccion_encontrada = false := by
  refine ⟨by decide, by decide⟩

/-- C3 amended: confidence alta occurs only with the section flag set and
a first-point category match; when the locator fails, the result has the
section flag unset and confidence baja, except that the judicial-verdict
tier returns confidence media. -/
theorem c3_amended_confidence_invariant (input : List Char) :
    ((classify input).confianza = "alta" →
      (classify input).seccion_encontrada = true ∧
      ∃ sc, extractResolutionSection (normalizeText input) = some sc ∧
        searchCats CATEGORIES (extractFirstPoint sc.2) =
          some ((classify input).categoria, (classify input).texto_clave)) ∧
    (extractResolutionSection (normalizeText input) = none →
      (classify input).seccion_encontrada = false ∧
      ((classify input).confianza = "baja" ∨
        ((classify input).confianza = "media" ∧
          sentenciaTier (normalizeText input) = some (classify input)))) := by
  constructor
  · intro ha
    cases h : extractResolutionSection (normalizeText input) with
    | none =>
      rw [classify_of_extract_none h] at ha
      obtain ⟨_, _, hconf⟩ := classifyFallback_shape (normalizeText input)
      rcases hconf with hb | ⟨hm, _⟩
      · exact absurd (ha.symm.trans hb) (by decide)
      · exact absurd (ha.symm.trans hm) (by decide)
    | some sc =>
      cases hfp : searchCats CATEGORIES (extractFirstPoint sc.2) with
      | some cm =>
        rw [classify_alta h hfp]
        exact ⟨rfl, sc, rfl, hfp⟩
      | none =>
        cases hsc : searchCats CATEGORIES sc.2 with
        | some cm =>
          rw [classify_media h hfp hsc] at ha
          dsimp only at ha
          exact absurd ha (by decide)
        | none =>
          rw [classify_nc h hfp hsc] at ha
          dsimp only at ha
          exact absurd ha (by decide)
  · intro h
    rw [classify_of_extract_none h]
    obtain ⟨hs, _, hconf⟩ := classifyFallback_shape (normalizeText input)
    exact ⟨hs, hconf⟩

set_option maxRecDepth 10000 in
set_option maxHeartbeats 2000000 in
/-- C3 witness: the judicial document instantiates the fallback half of
the amended invariant. -/
theorem c3_witness_confidence_invariant :
    (classify docSent).seccion_encontrada = false ∧
    ((classify docSent).confianza = "baja" ∨
      ((classify docSent).confianza = "media" ∧
        sentenciaTier (normalizeText docSent) = some (classify docSent))) :=
  (c3_amended_confidence_invariant docSent).2 (by decide)

set_option maxRecDepth 10000 in
set_option maxHeartbeats 2000000 in
/-- C4: evaluation at the failing input.  The singular phrase classifies
as DESESTIMADO as claimed, but the plural phrase classifies as ESTIMADO:
the ESTIMADO pattern estim-then-conflicto matches inside the substring
estiman los conflictos, while no DESESTIMADO pattern covers the
conjugation desestiman.  The claim (both forms yield DESESTIMADO) is the
documented intent; the code diverges on the plural form. -/
theorem c4_plural_singular_divergence :
    (classify docSingular).categoria = "DESESTIMADO" ∧
    classify docPlural =
      ⟨"ESTIMADO", "baja", String.toList ("estiman los conflicto"), false⟩ := by
  refine ⟨by decide, by decide⟩

/-- C5: category groups are evaluated ARCHIVADO first, so a first point
matching both an archival pattern and a denial pattern classifies as
ARCHIVADO with confidence alta. -/
theorem c5_group_precedence_archivado (input : List Char)
    (sc : List Char × List Char)
    (h : extractResolutionSection (normalizeText input) = some sc)
    (harch : ∃ p ∈ archPatterns, (reSearchM true p (extractFirstPoint sc.2)).isSome)
    (_hdese : ∃ p ∈ desePatterns, (reSearchM true p (extractFirstPoint sc.2)).isSome) :
    (classify input).categoria = "ARCHIVADO" ∧
    (classify input).confianza = "alta" := by
  obtain ⟨p, hp, hm⟩ := harch
  have hg : (searchGroup archPatterns (extractFirstPoint sc.2)).isSome :=
    searchGroup_isSome_of_mem hp hm
  obtain ⟨m, hgm⟩ := Option.isSome_iff_exists.mp hg
  have hcats : searchCats CATEGORIES (extractFirstPoint sc.2) =
      some ("ARCHIVADO", m) := searchCats_cons_some hgm
  rw [classify_alta h hcats]
  exact ⟨rfl, rfl⟩

set_option maxRecDepth 10000 in
set_option maxHeartbeats 2000000 in
/-- C5 witness: a concrete document whose first point holds an archival
trigger and a denial trigger. -/
theorem c5_witness_group_precedence :
    (classify docArchDese).categoria = "ARCHIVADO" ∧
    (classify docArchDese).confianza = "alta" :=
  c5_group_precedence_archivado docArchDese
    (String.toList ("RESUELVE"),
     String.toList ("PRIMERO. Archivar las actuaciones y desestimar el recurso interpuesto."))
    (by decide) ⟨arch05, by decide, by decide⟩ ⟨dese01, by decide, by decide⟩

set_option maxRecDepth 10000 in
set_option maxHeartbeats 2000000 in
/-- C6: among the collected section matches of either tier, the selected
one has the largest start offset; and the two-section document where the
earlier section grants and the later denies classifies as DESESTIMADO
from the later section. -/
theorem c6_last_occurrence_selection :
    (∀ t b, pickLast (strictMatches t) = some b →
      ∀ m ∈ strictMatches t, m.mstart ≤ b.mstart) ∧
    (∀ t b, pickLast (flexMatches t) = some b →
      ∀ m ∈ flexMatches t, m.mstart ≤ b.mstart) ∧
    (classify docTwoSections).categoria = "DESESTIMADO" ∧
    (classify docTwoSections).texto_clave = String.toList ("Desestimar el recurso") := by
  refine ⟨fun t b h m hm => pickLast_max h m hm,
          fun t b h m hm => pickLast_max h m hm, by decide, by decide⟩

set_option maxRecDepth 10000 in
set_option maxHeartbeats 2000000 in
/-- C6 witness: in the two-section document the earlier match start 0 is
bounded by the selected match start 57. -/
theorem c6_witness_last_occurrence :
    (⟨0, String.toList ("RESUELVE"),
       String.toList ("PRIMERO. Estimar el recurso interpuesto.\n")⟩ : SecMatch).mstart ≤
    (⟨57, String.toList ("RESUELVE"),
       String.toList ("PRIMERO. Desestimar el recurso interpuesto.\n")⟩ : SecMatch).mstart :=
  c6_last_occurrence_selection.1 (normalizeText docTwoSections)
    ⟨57, String.toList ("RESUELVE"),
      String.toList ("PRIMERO. Desestimar el recurso interpuesto.\n")⟩
    (by decide)
    ⟨0, String.toList ("RESUELVE"),
      String.toList ("PRIMERO. Estimar el recurso interpuesto.\n")⟩
    (by decide)

set_option maxRecDepth 10000 in
set_option maxHeartbeats 2000000 in
/-- C7 counterexample: a document containing the denial trap phrase
together with an archival trigger in the first point classifies as
ARCHIVADO, refuting the claim for every input containing the phrase. -/
theorem c7_counterexample_trap_with_archival :
    containsLit ("confirmar la denegación de acceso a la red") docTrapArch = true ∧
    (classify docTrapArch).categoria = "ARCHIVADO" := by
  refine ⟨by decide, by decide⟩

set_option maxRecDepth 10000 in
set_option maxHeartbeats 2000000 in
/-- C7 amended: the polarity traps resolve as specified on the documents
consisting of the trap phrases themselves: the confirm-denial phrase
yields DESESTIMADO and the annul-and-recognise phrase yields ESTIMADO. -/
theorem c7_amended_polarity_traps :
    classify docTrapA =
      ⟨"DESESTIMADO", "baja", String.toList ("confirmar la denegación"), false⟩ ∧
    classify docTrapB =
      ⟨"ESTIMADO", "baja", String.toList ("reconocer el derecho"), false⟩ := by
  refine ⟨by decide, by decide⟩

/-- C8 counterexample: the rule engine returns ESTIMADO_PARCIAL, a
category outside the claimed closed set. -/
theorem c8_counterexample_estimado_parcial :
    ruleClassify (String.toList ("estimar parcialmente")) = some ("ESTIMADO_PARCIAL") ∧
    ("ESTIMADO_PARCIAL") ∉
      (["ESTIMADO", "DESESTIMADO", "ARCHIVADO", "NO_CLASIFICADO"] : List String) := by
  refine ⟨by decide, by decide⟩

/-- C8 amended: the rule engine returns null or one of DESESTIMADO,
ESTIMADO, ARCHIVADO, ESTIMADO_PARCIAL; it never returns a category
outside the categories declared in DEFAULT_RULES. -/
theorem c8_amended_rule_engine_categories (t : List Char) (c : String)
    (h : ruleClassify t = some c) :
    c ∈ (["DESESTIMADO", "ESTIMADO", "ARCHIVADO", "ESTIMADO_PARCIAL"] : List String) := by
  unfold ruleClassify at h
  cases hf : sortedRules.find? fun r => ruleMatches r t with
  | none => rw [hf] at h; cases h
  | some r =>
    rw [hf] at h
    dsimp only [Option.map] at h
    injection h with h2
    subst h2
    have hr : r ∈ sortedRules := List.mem_of_find?_eq_some hf
    have hs : sortedRules =
        [rule_desestimacion_total, rule_desestimacion_fallo, rule_estimacion_total,
         rule_archivo_actuaciones, rule_archivo_expediente, rule_estimacion_fallo,
         rule_estimacion_parcial] := rfl
    rw [hs] at hr
    simp only [List.mem_cons, List.not_mem_nil, or_false] at hr
    rcases hr with rfl | rfl | rfl | rfl | rfl | rfl | rfl <;> decide

/-- C8 witness: the amended bound applied at the partial-grant input. -/
theorem c8_witness_rule_engine_categories :
    ("ESTIMADO_PARCIAL") ∈
      (["DESESTIMADO", "ESTIMADO", "ARCHIVADO", "ESTIMADO_PARCIAL"] : List String) :=
  c8_amended_rule_engine_categories (String.toList ("estimar parcialmente"))
    ("ESTIMADO_PARCIAL") (by decide)

/-- C9: fallback exhaustion is a normal return: when the section locator
and every fallback tier fail, classify returns exactly NO_CLASIFICADO,
confidence baja, empty matched text and section flag false. -/
theorem c9_fallback_exhaustion (input : List Char)
    (h0 : extractResolutionSection (normalizeText input) = none)
    (h1 : sentenciaTier (normalizeText input) = none)
    (h2 : lastPartTier (normalizeText input) = none)
    (h3 : highConfTier (normalizeText input) = none)
    (h4 : lastResortTier (normalizeText input) = none) :
    classify input = ⟨"NO_CLASIFICADO", "baja", [], false⟩ := by
  rw [classify_of_extract_none h0]
  exact classifyFallback_eq_exhausted h1 h2 h3 h4

/-- C9 witness: the empty document exhausts every tier. -/
theorem c9_witness_fallback_exhaustion :
    classify [] = ⟨"NO_CLASIFICADO", "baja", [], false⟩ :=
  c9_fallback_exhaustion [] (by decide) (by decide) (by decide) (by decide) (by decide)

/-- C10: section found but no category match anywhere: classify returns
NO_CLASIFICADO, confidence baja, the section flag set, and the matched
text is the first 100 characters of the extracted first point. -/
theorem c10_section_found_unclassified (input : List Char)
    (sc : List Char × List Char)
    (h : extractResolutionSection (normalizeText input) = some sc)
    (hfp : searchCats CATEGORIES (extractFirstPoint sc.2) = none)
    (hsc : searchCats CATEGORIES sc.2 = none) :
    classify input =
      ⟨"NO_CLASIFICADO", "baja", (extractFirstPoint sc.2).take 100, true⟩ :=
  classify_nc h hfp hsc

set_option maxRecDepth 10000 in
set_option maxHeartbeats 2000000 in
/-- C10 witness: the administrative note document has a section, matches
nothing, and keeps a non-empty texto_clave. -/
theorem c10_witness_section_found_unclassified :
    classify docTomar =
      ⟨"NO_CLASIFICADO", "baja",
        (extractFirstPoint (String.toList ("RESUELVE"),
          String.toList ("PRIMERO. Tomar nota.")).2).take 100, true⟩ :=
  c10_section_found_unclassified docTomar
    (String.toList ("RESUELVE"), String.toList ("PRIMERO. Tomar nota."))
    (by decide) (by decide) (by decide)

end CNMC
